import Mathlib

/-!
Shallow embedding of the incremental-reconfiguration logic of
`scripts/platformio/platformio-build.py` (classes `BuildEnvironment` and
`ZephyrSdk`, plus the free functions `check_command` and
`dontGenerateProgram`), together with theorems settling the frozen claims
about the natural-language specification of that script.

Modelling conventions:
* Paths and file contents are `String`s; `pathlib`'s `/` join is string
  concatenation with a `"/"` separator.
* The filesystem is a partial map `String → Option File`; a `File` carries
  its textual content and an abstract modification time (a `Nat`).
  Directories are ordinary entries whose content is irrelevant (only their
  mtime is ever consulted, exactly as in the script).
* `Path.stat()` raising `FileNotFoundError` on a missing path is modelled
  by `Except String` with the missing path as the error value; likewise
  `RuntimeError` raised by `check_command` / `set_env` carries the
  formatted message.
* The Jinja template renderer lives outside the repository; it is passed
  in as an explicit function argument (`render`), as the script only ever
  feeds it a context and compares the resulting text for equality.
* Python machine integers do not overflow in any of the modelled code
  (mtimes are opaque ordered values, return codes are tested against 0),
  so `Nat`/`Int` are used directly.
-/

namespace FrameworkSdkNrf

/-- File entry of the modelled filesystem: textual content plus an abstract
modification time, the two attributes the script ever reads. -/
structure File where
  content : String
  mtime : Nat
deriving DecidableEq

/-- Filesystem state: a partial map from paths to files. -/
abbrev FS : Type := String → Option File

/-- Model of `path.write_text(content)` at time `now` (also used for
`open(...,"w").write`): creates or overwrites the entry, refreshing its
modification time. -/
def write_text (fs : FS) (p c : String) (now : Nat) : FS :=
  fun q => if q = p then some { content := c, mtime := now } else fs q

/-- Model of `path.mkdir(parents=True, exist_ok=True)` restricted to the
directory entry itself (paths are opaque strings here, so the parent chain
is not tracked): an existing entry is left untouched. -/
def mkdir_p (fs : FS) (d : String) (now : Nat) : FS :=
  match fs d with
  | some _ => fs
  | none => write_text fs d "" now

/-- Model of `pathlib.Path.stat()`: returns the entry, or raises
`FileNotFoundError` (here: `Except.error` carrying the missing path). -/
def FS.stat (fs : FS) (p : String) : Except String File :=
  match fs p with
  | some f => .ok f
  | none => .error p

/-! ### check_command (script lines 62-65) -/

/-- Result dictionary of `platformio.proc.exec_command`: the fields
`returncode`, `out` and `err` read by the script. -/
structure CmdResult where
  returncode : Int
  out : String
  err : String
deriving DecidableEq

/-- Embedding of `check_command(ret, msg)`: raise a `RuntimeError` whose
message interpolates `msg`, the captured stdout and the captured stderr
when the return code is non-zero, else return `(out, err)`. -/
def check_command (ret : CmdResult) (msg : String) : Except String (String × String) :=
  if ret.returncode ≠ 0 then
    .error (msg ++ ":\nstdout: " ++ ret.out ++ "\nstderr: " ++ ret.err)
  else
    .ok (ret.out, ret.err)

/-! ### BuildEnvironment.set_env (script lines 116-129) -/

/-- POSIX `os.pathsep` as a separator character, used by `str.split`. -/
def pathsepChar : Char := ':'

/-- POSIX `os.pathsep` as a string, used by `str.join`. -/
def pathsep : String := ":"

/-- Core of Python's `str.split(sep)` for a one-character separator, on the
character list of the string: splits at every occurrence, keeping empty
pieces (so `"".split(":") == [""]` and `":".split(":") == ["", ""]`). -/
def splitSepChars (sep : Char) : List Char → List (List Char)
  | [] => [[]]
  | c :: rest =>
    match splitSepChars sep rest with
    | [] => [[c]]
    | h :: t => if c = sep then [] :: h :: t else (c :: h) :: t

/-- Embedding of `value.split(os.pathsep)`. -/
def pySplit (s : String) : List String :=
  (splitSepChars pathsepChar s.data).map String.mk

/-- Lookup in the insertion-ordered dictionary modelling `self.env`. -/
def envLookup : List (String × String) → String → Option String
  | [], _ => none
  | (k, v) :: rest, key => if k = key then some v else envLookup rest key

/-- Update-or-append in the dictionary modelling `self.env[key] = value`. -/
def envSet : List (String × String) → String → String → List (String × String)
  | [], key, value => [(key, value)]
  | (k, v) :: rest, key, value =>
    if k = key then (k, value) :: rest else (k, v) :: envSet rest key value

/-- Accumulated build environment; only the environment-variable dictionary
is modelled (the venv path and the four directories of the Python class do
not participate in `set_env`). -/
structure BuildEnvironment where
  env : List (String × String)
deriving DecidableEq

/-- Embedding of `BuildEnvironment.set_env(key, value)`: a key already in
the dictionary raises a `RuntimeError` unless it is `"PATH"`, in which case
the new value's path-separator-split entries are prepended to the old
value's entries and re-joined; an absent key is simply set. -/
def BuildEnvironment.set_env (be : BuildEnvironment) (key value : String) :
    Except String BuildEnvironment :=
  match envLookup be.env key with
  | some old =>
    if key = "PATH" then
      .ok ⟨envSet be.env key (String.intercalate pathsep (pySplit value ++ pySplit old))⟩
    else
      .error ("Environment variable " ++ key ++ " is already set")
  | none => .ok ⟨envSet be.env key value⟩

/-! ### Helper lemmas about the dictionary -/

theorem envLookup_envSet (e : List (String × String)) (k v : String) :
    envLookup (envSet e k v) k = some v := by
  induction e with
  | nil => simp [envSet, envLookup]
  | cons hd tl ih =>
    obtain ⟨k2, v2⟩ := hd
    by_cases h : k2 = k <;> simp [envSet, envLookup, h, ih]

theorem envLookup_envSet_ne (e : List (String × String)) (k v k2 : String)
    (h : k2 ≠ k) : envLookup (envSet e k v) k2 = envLookup e k2 := by
  induction e with
  | nil =>
    have hne : ¬ k = k2 := fun hh => h hh.symm
    simp [envSet, envLookup, hne]
  | cons hd tl ih =>
    obtain ⟨k3, v3⟩ := hd
    by_cases h3 : k3 = k
    · subst h3
      have hne : ¬ k3 = k2 := fun hh => h hh.symm
      simp [envSet, envLookup, hne]
    · simp [envSet, envLookup, h3, ih]

/-! ### Claim theorems: C8 and C10 -/

/-- C8: an external command result is treated as fatal exactly when its
exit code is non-zero: `check_command` raises an error interpolating the
captured stdout and stderr verbatim on a non-zero `returncode`, and
returns the captured `(stdout, stderr)` pair without error on a zero
`returncode`. -/
theorem C8_check_command_fatal_iff_nonzero (ret : CmdResult) (msg : String) :
    (ret.returncode ≠ 0 →
      check_command ret msg =
        .error (msg ++ ":\nstdout: " ++ ret.out ++ "\nstderr: " ++ ret.err))
    ∧ (ret.returncode = 0 → check_command ret msg = .ok (ret.out, ret.err))
    ∧ (check_command ret msg = .ok (ret.out, ret.err) ↔ ret.returncode = 0) := by
  unfold check_command
  by_cases h : ret.returncode = 0 <;> simp [h]

/-- Witness for C8 at concrete command results: a failing `west build`
style result (code 1) raises with both streams embedded verbatim, and a
succeeding result (code 0) returns the streams. -/
theorem C8_check_command_fatal_iff_nonzero_witness :
    check_command ⟨1, "cmake out", "cmake err"⟩ "Failed to run command: west build" =
      .error "Failed to run command: west build:\nstdout: cmake out\nstderr: cmake err"
    ∧ check_command ⟨0, "ok out", "ok err"⟩ "Failed to run command: west build" =
      .ok ("ok out", "ok err") := by
  constructor
  · exact (C8_check_command_fatal_iff_nonzero ⟨1, "cmake out", "cmake err"⟩
      "Failed to run command: west build").1 (by decide)
  · exact (C8_check_command_fatal_iff_nonzero ⟨0, "ok out", "ok err"⟩
      "Failed to run command: west build").2.1 rfl

/-- C10: `set_env` on a key already present in the accumulated environment
raises an error unless the key is `"PATH"`; for `"PATH"` it merges by
prepending the path-separator-split entries of the new value before the
existing entries (so the previously set entries are preserved as the tail
of the joined result), and any absent key is simply set — hence any key
other than `"PATH"` can be set at most once per invocation. -/
theorem C10_set_env_duplicate_policy (be : BuildEnvironment) (key value old : String) :
    (envLookup be.env key = some old → key ≠ "PATH" →
      be.set_env key value =
        .error ("Environment variable " ++ key ++ " is already set"))
    ∧ (envLookup be.env "PATH" = some old →
      be.set_env "PATH" value =
        .ok ⟨envSet be.env "PATH"
          (String.intercalate pathsep (pySplit value ++ pySplit old))⟩
      ∧ envLookup (envSet be.env "PATH"
            (String.intercalate pathsep (pySplit value ++ pySplit old))) "PATH" =
          some (String.intercalate pathsep (pySplit value ++ pySplit old))
      ∧ ∀ k2, k2 ≠ "PATH" →
          envLookup (envSet be.env "PATH"
            (String.intercalate pathsep (pySplit value ++ pySplit old))) k2 =
          envLookup be.env k2)
    ∧ (envLookup be.env key = none →
      be.set_env key value = .ok ⟨envSet be.env key value⟩) := by
  refine ⟨fun h hne => ?_, fun h => ?_, fun h => ?_⟩
  · simp [BuildEnvironment.set_env, h, hne]
  · refine ⟨by simp [BuildEnvironment.set_env, h], envLookup_envSet .., fun k2 hk2 => ?_⟩
    exact envLookup_envSet_ne _ _ _ _ hk2
  · simp [BuildEnvironment.set_env, h]

/-- Witness for C10 at a concrete environment holding `PATH = "/old1:/old2"`
and `HOME = "/root"`: re-setting `HOME` errors, setting `PATH` to
`"/new"` yields the merged value `"/new:/old1:/old2"` while `HOME` is
preserved, and a fresh key is simply set. -/
theorem C10_set_env_duplicate_policy_witness :
    BuildEnvironment.set_env ⟨[("PATH", "/old1:/old2"), ("HOME", "/root")]⟩ "HOME" "/tmp" =
      .error "Environment variable HOME is already set"
    ∧ BuildEnvironment.set_env ⟨[("PATH", "/old1:/old2"), ("HOME", "/root")]⟩ "PATH" "/new" =
      .ok ⟨[("PATH", "/new:/old1:/old2"), ("HOME", "/root")]⟩
    ∧ BuildEnvironment.set_env ⟨[("PATH", "/old1:/old2"), ("HOME", "/root")]⟩ "ZEPHYR_BASE" "/z" =
      .ok ⟨[("PATH", "/old1:/old2"), ("HOME", "/root"), ("ZEPHYR_BASE", "/z")]⟩ := by
  refine ⟨?_, ?_, ?_⟩
  · exact (C10_set_env_duplicate_policy ⟨[("PATH", "/old1:/old2"), ("HOME", "/root")]⟩
      "HOME" "/tmp" "/root").1 (by decide) (by decide)
  · have h := ((C10_set_env_duplicate_policy ⟨[("PATH", "/old1:/old2"), ("HOME", "/root")]⟩
      "PATH" "/new" "/old1:/old2").2.1 (by decide)).1
    rw [h]
    exact congrArg (fun l => Except.ok (⟨l⟩ : BuildEnvironment)) (by decide)
  · have h := (C10_set_env_duplicate_policy ⟨[("PATH", "/old1:/old2"), ("HOME", "/root")]⟩
      "ZEPHYR_BASE" "/z" "").2.2 (by decide)
    rw [h]
    exact congrArg (fun l => Except.ok (⟨l⟩ : BuildEnvironment)) (by decide)

/-! ### ZephyrSdk: state, artifact generation and the reconfigure decision
(script lines 132-195) -/

/-- State of the `ZephyrSdk` object: the directories derived from the build
environment (`app_dir = workspace_dir / "app"`), the pinned version, the
module list accumulated by `add_modules`, and the `need_reconfigure` flag
initialised to `False` in `__init__`. -/
structure ZephyrSdk where
  project_name : String
  source_dir : String
  build_dir : String
  app_dir : String
  version : String
  modules : List String
  need_reconfigure : Bool
deriving DecidableEq

/-- Path `self.app_dir / "west.yml"`. -/
def west_yml_path (sdk : ZephyrSdk) : String := sdk.app_dir ++ "/west.yml"

/-- Path `self.app_dir / "CMakeLists.txt"`. -/
def cmake_txt_path (sdk : ZephyrSdk) : String := sdk.app_dir ++ "/CMakeLists.txt"

/-- Path `self.build_env.build_dir / "CMakeCache.txt"`. -/
def cmake_cache_path (sdk : ZephyrSdk) : String := sdk.build_dir ++ "/CMakeCache.txt"

/-- Path `self.build_env.source_dir / "main.c"`. -/
def main_c_path (sdk : ZephyrSdk) : String := sdk.source_dir ++ "/main.c"

/-- Embedding of `ZephyrSdk.add_modules(modules)`: `self.modules += modules`
(plain concatenation, no sorting). -/
def add_modules (sdk : ZephyrSdk) (modules : List String) : ZephyrSdk :=
  { sdk with modules := sdk.modules ++ modules }

/-- Template context handed to `west.yml.j2` by `_generate_west_config`. -/
structure WestContext where
  modules : List String
  version : String
deriving DecidableEq

/-- Template context handed to `CMakeLists.txt.j2` and `app_main.c.j2` by
`_generate_project_files`. -/
structure ProjectContext where
  build_flags : List String
  link_flags : List String
  source_files : List String
  project_name : String
deriving DecidableEq

/-- Shared write-if-changed pattern of script lines 161-165 and 193-195:
`if (not path.exists()) or (path.read_text() != content): path.write_text(content)`.
Returns the new filesystem together with whether a write happened. -/
def write_if_changed (fs : FS) (p content : String) (now : Nat) : FS × Bool :=
  match fs p with
  | none => (write_text fs p content now, true)
  | some f =>
    if f.content = content then (fs, false) else (write_text fs p content now, true)

/-- Embedding of `ZephyrSdk._generate_west_config()`: render `west.yml.j2`
over the accumulated modules and the version, write `app_dir/west.yml` if
absent or different, and set `need_reconfigure` on a write. -/
def generate_west_config (render : WestContext → String) (sdk : ZephyrSdk)
    (fs : FS) (now : Nat) : ZephyrSdk × FS :=
  let west_yml_tpl := render { modules := sdk.modules, version := sdk.version }
  let r := write_if_changed fs (west_yml_path sdk) west_yml_tpl now
  (if r.2 then { sdk with need_reconfigure := true } else sdk, r.1)

/-- Embedding of `ZephyrSdk._generate_project_files(build_flags, link_flags,
source_files)`: build the context, `mkdir` the app directory, write
`app_dir/CMakeLists.txt` if absent or different (setting `need_reconfigure`
on a write), and additionally write a templated `source_dir/main.c` when the
source directory has no entries (`sourceDirEmpty` stands for
`not any(self.build_env.source_dir.iterdir())`). -/
def generate_project_files (render : String → ProjectContext → String)
    (sdk : ZephyrSdk) (build_flags link_flags source_files : List String)
    (sourceDirEmpty : Bool) (fs : FS) (now : Nat) : ZephyrSdk × FS :=
  let context : ProjectContext :=
    { build_flags := build_flags, link_flags := link_flags,
      source_files := source_files, project_name := sdk.project_name }
  let fs1 := mkdir_p fs sdk.app_dir now
  let r := write_if_changed fs1 (cmake_txt_path sdk) (render "CMakeLists.txt.j2" context) now
  let sdk2 := if r.2 then { sdk with need_reconfigure := true } else sdk
  if sourceDirEmpty then
    (sdk2, write_text r.1 (main_c_path sdk) (render "app_main.c.j2" context) now)
  else
    (sdk2, r.1)

/-- Embedding of `ZephyrSdk._is_reconfigure_required()`: return `True` when
the accumulated flag is set; otherwise stat `app_dir/west.yml` against the
build directory, then `app_dir/CMakeLists.txt` against
`build_dir/CMakeCache.txt`, returning `True` on a strictly newer watched
file; every `stat` of a missing path raises (propagated as `.error`). -/
def is_reconfigure_required (sdk : ZephyrSdk) (fs : FS) : Except String Bool := do
  if sdk.need_reconfigure then
    return true
  let west ← FS.stat fs (west_yml_path sdk)
  let bdir ← FS.stat fs sdk.build_dir
  if west.mtime > bdir.mtime then
    return true
  let ctxt ← FS.stat fs (cmake_txt_path sdk)
  let cache ← FS.stat fs (cmake_cache_path sdk)
  if ctxt.mtime > cache.mtime then
    return true
  return false

/-! ### Helper: evaluation of the decision when all stat-ed files exist -/

theorem decision_eq_of_all_present (sdk : ZephyrSdk) (fs : FS) (w b c k : File)
    (hflag : sdk.need_reconfigure = false)
    (hw : fs (west_yml_path sdk) = some w)
    (hb : fs sdk.build_dir = some b)
    (hc : fs (cmake_txt_path sdk) = some c)
    (hk : fs (cmake_cache_path sdk) = some k) :
    is_reconfigure_required sdk fs =
      .ok (decide (w.mtime > b.mtime) || decide (c.mtime > k.mtime)) := by
  unfold is_reconfigure_required
  rw [hflag]
  simp only [FS.stat, hw, hb, hc, hk, bind, Except.bind, pure, Except.pure,
    Bool.false_eq_true, if_false]
  by_cases h1 : w.mtime > b.mtime <;> by_cases h2 : c.mtime > k.mtime <;>
    simp [h1, h2]

/-! ### Claim theorems: C1, C2, C3, C4 -/

/-- C1: with the accumulated flag false and all four stat-ed paths present,
the decision returns (without error) exactly the disjunction "some watched
generated file is strictly newer than its cache marker", where `west.yml`'s
marker is the build directory and `CMakeLists.txt`'s marker is
`CMakeCache.txt`; in particular marker strictly newer than (or as new as)
the watched file contributes no signal. -/
theorem C1_decision_iff_watched_newer (sdk : ZephyrSdk) (fs : FS) (w b c k : File)
    (hflag : sdk.need_reconfigure = false)
    (hw : fs (west_yml_path sdk) = some w)
    (hb : fs sdk.build_dir = some b)
    (hc : fs (cmake_txt_path sdk) = some c)
    (hk : fs (cmake_cache_path sdk) = some k) :
    is_reconfigure_required sdk fs =
      .ok (decide (w.mtime > b.mtime) || decide (c.mtime > k.mtime))
    ∧ (is_reconfigure_required sdk fs = .ok true ↔
      w.mtime > b.mtime ∨ c.mtime > k.mtime) := by
  have hmain := decision_eq_of_all_present sdk fs w b c k hflag hw hb hc hk
  refine ⟨hmain, ?_⟩
  rw [hmain]
  constructor
  · intro h
    have hx := Except.ok.inj h
    rcases Bool.or_eq_true_iff.mp hx with h' | h'
    · exact Or.inl (of_decide_eq_true h')
    · exact Or.inr (of_decide_eq_true h')
  · intro h
    rcases h with h' | h'
    · simp [h']
    · simp [h']

/-- Witness for C1 at the spec's two scenarios: markers at mtime 10 and
watched files at mtime 5 yield `False`; watched files at mtime 10 and
markers at mtime 5 yield `True`. -/
theorem C1_decision_iff_watched_newer_witness :
    is_reconfigure_required
      ⟨"proj", "src", "bld", "app", "v4.3.0", [], false⟩
      (fun p =>
        if p = "app/west.yml" then some ⟨"w", 5⟩
        else if p = "bld" then some ⟨"", 10⟩
        else if p = "app/CMakeLists.txt" then some ⟨"c", 5⟩
        else if p = "bld/CMakeCache.txt" then some ⟨"k", 10⟩
        else none) = .ok false
    ∧ is_reconfigure_required
      ⟨"proj", "src", "bld", "app", "v4.3.0", [], false⟩
      (fun p =>
        if p = "app/west.yml" then some ⟨"w", 10⟩
        else if p = "bld" then some ⟨"", 5⟩
        else if p = "app/CMakeLists.txt" then some ⟨"c", 10⟩
        else if p = "bld/CMakeCache.txt" then some ⟨"k", 5⟩
        else none) = .ok true := by
  constructor
  · have h := (C1_decision_iff_watched_newer
      ⟨"proj", "src", "bld", "app", "v4.3.0", [], false⟩
      (fun p =>
        if p = "app/west.yml" then some ⟨"w", 5⟩
        else if p = "bld" then some ⟨"", 10⟩
        else if p = "app/CMakeLists.txt" then some ⟨"c", 5⟩
        else if p = "bld/CMakeCache.txt" then some ⟨"k", 10⟩
        else none)
      ⟨"w", 5⟩ ⟨"", 10⟩ ⟨"c", 5⟩ ⟨"k", 10⟩ rfl (by decide) (by decide) (by decide)
      (by decide)).1
    rw [h]
    rfl
  · have h := (C1_decision_iff_watched_newer
      ⟨"proj", "src", "bld", "app", "v4.3.0", [], false⟩
      (fun p =>
        if p = "app/west.yml" then some ⟨"w", 10⟩
        else if p = "bld" then some ⟨"", 5⟩
        else if p = "app/CMakeLists.txt" then some ⟨"c", 10⟩
        else if p = "bld/CMakeCache.txt" then some ⟨"k", 5⟩
        else none)
      ⟨"w", 10⟩ ⟨"", 5⟩ ⟨"c", 10⟩ ⟨"k", 5⟩ rfl (by decide) (by decide) (by decide)
      (by decide)).1
    rw [h]
    rfl

/-- C2 counterexample: with the accumulated flag false, west.yml (mtime 5)
not newer than the build directory (mtime 10) and CMakeLists.txt present,
a missing cache marker `bld/CMakeCache.txt` makes the decision raise the
missing path instead of returning true as the claim states. -/
theorem C2_missing_marker_counterexample :
    is_reconfigure_required
      ⟨"proj", "src", "bld", "app", "v4.3.0", [], false⟩
      (fun p =>
        if p = "app/west.yml" then some ⟨"w", 5⟩
        else if p = "bld" then some ⟨"", 10⟩
        else if p = "app/CMakeLists.txt" then some ⟨"c", 5⟩
        else none) = .error "bld/CMakeCache.txt"
    ∧ is_reconfigure_required
      ⟨"proj", "src", "bld", "app", "v4.3.0", [], false⟩
      (fun p =>
        if p = "app/west.yml" then some ⟨"w", 5⟩
        else if p = "bld" then some ⟨"", 10⟩
        else if p = "app/CMakeLists.txt" then some ⟨"c", 5⟩
        else none) ≠ .ok true := by
  refine ⟨rfl, fun h => ?_⟩
  exact Except.noConfusion h

/-- C2 amended: when the cache marker `build_dir/CMakeCache.txt` does not
exist and the earlier checks give no early return (accumulated flag false,
`west.yml` and the build directory present with `west.yml` not strictly
newer, `CMakeLists.txt` present), the decision raises the missing marker
path (a propagated `FileNotFoundError`) instead of returning true; the
actual first configuration is signalled through the flag set when the
artifacts are first written. -/
theorem C2_missing_marker_raises (sdk : ZephyrSdk) (fs : FS) (w b c : File)
    (hflag : sdk.need_reconfigure = false)
    (hw : fs (west_yml_path sdk) = some w)
    (hb : fs sdk.build_dir = some b)
    (hnotnew : ¬ w.mtime > b.mtime)
    (hc : fs (cmake_txt_path sdk) = some c)
    (hk : fs (cmake_cache_path sdk) = none) :
    is_reconfigure_required sdk fs = .error (cmake_cache_path sdk) := by
  unfold is_reconfigure_required
  rw [hflag]
  simp [FS.stat, hw, hb, hc, hk, hnotnew, bind, Except.bind, pure, Except.pure]

/-- Witness for the amended C2 at a concrete state with the marker absent. -/
theorem C2_missing_marker_raises_witness :
    is_reconfigure_required
      ⟨"proj2", "source", "build", "application", "v4.3.0", [], false⟩
      (fun p =>
        if p = "application/west.yml" then some ⟨"w", 3⟩
        else if p = "build" then some ⟨"", 7⟩
        else if p = "application/CMakeLists.txt" then some ⟨"c", 4⟩
        else none) = .error "build/CMakeCache.txt" :=
  C2_missing_marker_raises
    ⟨"proj2", "source", "build", "application", "v4.3.0", [], false⟩
    (fun p =>
      if p = "application/west.yml" then some ⟨"w", 3⟩
      else if p = "build" then some ⟨"", 7⟩
      else if p = "application/CMakeLists.txt" then some ⟨"c", 4⟩
      else none)
    ⟨"w", 3⟩ ⟨"", 7⟩ ⟨"c", 4⟩ rfl (by decide) (by decide) (by decide) (by decide)
    (by decide)

/-- C3 counterexample: with the accumulated flag false and every other
stat-ed path present and non-signalling, a missing watched `west.yml`
makes the decision raise the missing path — it neither returns the result
of the watch set without that path (`false`) nor any boolean at all. -/
theorem C3_missing_watched_counterexample :
    is_reconfigure_required
      ⟨"proj", "src", "bld", "app", "v4.3.0", [], false⟩
      (fun p =>
        if p = "bld" then some ⟨"", 10⟩
        else if p = "app/CMakeLists.txt" then some ⟨"c", 5⟩
        else if p = "bld/CMakeCache.txt" then some ⟨"k", 10⟩
        else none) = .error "app/west.yml"
    ∧ is_reconfigure_required
      ⟨"proj", "src", "bld", "app", "v4.3.0", [], false⟩
      (fun p =>
        if p = "bld" then some ⟨"", 10⟩
        else if p = "app/CMakeLists.txt" then some ⟨"c", 5⟩
        else if p = "bld/CMakeCache.txt" then some ⟨"k", 10⟩
        else none) ≠ .ok false := by
  refine ⟨rfl, fun h => ?_⟩
  exact Except.noConfusion h

/-- C3 amended: the decision is not total on states with a missing watched
path: with the accumulated flag false, a missing `west.yml` raises its
path, and (when `west.yml` and the build directory are present and
non-signalling) a missing `CMakeLists.txt` raises its path — a missing
watched path is a propagated error, not "no signal". -/
theorem C3_missing_watched_raises (sdk : ZephyrSdk) (fs : FS) (w b : File)
    (hflag : sdk.need_reconfigure = false) :
    (fs (west_yml_path sdk) = none →
      is_reconfigure_required sdk fs = .error (west_yml_path sdk))
    ∧ (fs (west_yml_path sdk) = some w → fs sdk.build_dir = some b →
      ¬ w.mtime > b.mtime → fs (cmake_txt_path sdk) = none →
      is_reconfigure_required sdk fs = .error (cmake_txt_path sdk)) := by
  constructor
  · intro hw
    unfold is_reconfigure_required
    rw [hflag]
    simp [FS.stat, hw, bind, Except.bind, pure, Except.pure]
  · intro hw hb hnotnew hc
    unfold is_reconfigure_required
    rw [hflag]
    simp [FS.stat, hw, hb, hc, hnotnew, bind, Except.bind, pure, Except.pure]

/-- Witness for the amended C3 at concrete states: a missing `west.yml`
raises its path, and a missing `CMakeLists.txt` raises its path. -/
theorem C3_missing_watched_raises_witness :
    is_reconfigure_required
      ⟨"p3", "s3", "b3", "a3", "v4.3.0", [], false⟩
      (fun p => if p = "b3" then some ⟨"", 10⟩ else none) = .error "a3/west.yml"
    ∧ is_reconfigure_required
      ⟨"p3", "s3", "b3", "a3", "v4.3.0", [], false⟩
      (fun p =>
        if p = "a3/west.yml" then some ⟨"w", 1⟩
        else if p = "b3" then some ⟨"", 2⟩
        else none) = .error "a3/CMakeLists.txt" := by
  constructor
  · exact (C3_missing_watched_raises
      ⟨"p3", "s3", "b3", "a3", "v4.3.0", [], false⟩
      (fun p => if p = "b3" then some ⟨"", 10⟩ else none)
      ⟨"", 0⟩ ⟨"", 0⟩ rfl).1 (by decide)
  · exact (C3_missing_watched_raises
      ⟨"p3", "s3", "b3", "a3", "v4.3.0", [], false⟩
      (fun p =>
        if p = "a3/west.yml" then some ⟨"w", 1⟩
        else if p = "b3" then some ⟨"", 2⟩
        else none)
      ⟨"w", 1⟩ ⟨"", 2⟩ rfl).2 (by decide) (by decide) (by decide) (by decide)

/-- C4 counterexample: the claim's OR characterization fails for the
"marker absent" signal: in a state where the marker is the only signal
that holds (flag false, artifacts present and not newer than their
markers... but the marker absent), the decision raises instead of
returning true. -/
theorem C4_or_characterization_counterexample :
    is_reconfigure_required
      ⟨"p4", "s4", "bdir4", "adir4", "v4.3.0", [], false⟩
      (fun p =>
        if p = "adir4/west.yml" then some ⟨"w", 2⟩
        else if p = "bdir4" then some ⟨"", 8⟩
        else if p = "adir4/CMakeLists.txt" then some ⟨"c", 2⟩
        else none) ≠ .ok true
    ∧ is_reconfigure_required
      ⟨"p4", "s4", "bdir4", "adir4", "v4.3.0", [], false⟩
      (fun p =>
        if p = "adir4/west.yml" then some ⟨"w", 2⟩
        else if p = "bdir4" then some ⟨"", 8⟩
        else if p = "adir4/CMakeLists.txt" then some ⟨"c", 2⟩
        else none) = .error "bdir4/CMakeCache.txt" := by
  refine ⟨fun h => Except.noConfusion h, rfl⟩

/-- C4 amended: within one invocation the flag is monotone and the
decision, on states where all stat-ed files exist, is the OR of the
individual signals: both generation operations compute the new flag as
`old flag OR wrote` (never clearing a set flag), and the decision returns
`flag OR west.yml-newer-than-build-dir OR CMakeLists-newer-than-cache`;
a missing cache marker raises instead of counting as a true signal. -/
theorem C4_monotone_flag_and_or (render : WestContext → String)
    (renderP : String → ProjectContext → String)
    (sdk : ZephyrSdk) (fs : FS) (now : Nat)
    (build_flags link_flags source_files : List String)
    (sourceDirEmpty : Bool) (w b c k : File) :
    (generate_west_config render sdk fs now).1.need_reconfigure =
      (sdk.need_reconfigure ||
        (write_if_changed fs (west_yml_path sdk)
          (render { modules := sdk.modules, version := sdk.version }) now).2)
    ∧ (generate_project_files renderP sdk build_flags link_flags source_files
        sourceDirEmpty fs now).1.need_reconfigure =
      (sdk.need_reconfigure ||
        (write_if_changed (mkdir_p fs sdk.app_dir now) (cmake_txt_path sdk)
          (renderP "CMakeLists.txt.j2"
            { build_flags := build_flags, link_flags := link_flags,
              source_files := source_files, project_name := sdk.project_name }) now).2)
    ∧ (fs (west_yml_path sdk) = some w → fs sdk.build_dir = some b →
      fs (cmake_txt_path sdk) = some c → fs (cmake_cache_path sdk) = some k →
      is_reconfigure_required sdk fs =
        .ok (sdk.need_reconfigure || decide (w.mtime > b.mtime) ||
          decide (c.mtime > k.mtime))) := by
  refine ⟨?_, ?_, ?_⟩
  · unfold generate_west_config
    cases hr : (write_if_changed fs (west_yml_path sdk)
        (render { modules := sdk.modules, version := sdk.version }) now).2 <;>
      simp [hr]
  · unfold generate_project_files
    cases hr : (write_if_changed (mkdir_p fs sdk.app_dir now) (cmake_txt_path sdk)
        (renderP "CMakeLists.txt.j2"
          { build_flags := build_flags, link_flags := link_flags,
            source_files := source_files, project_name := sdk.project_name }) now).2 <;>
      cases sourceDirEmpty <;> simp [hr]
  · intro hw hb hc hk
    cases hflag : sdk.need_reconfigure
    · have h := decision_eq_of_all_present sdk fs w b c k hflag hw hb hc hk
      rw [h]
      simp
    · unfold is_reconfigure_required
      rw [hflag]
      simp [pure, Except.pure]

/-- Witness for the amended C4: a flag already set survives a no-op
`generate_west_config` (rendered content equal to the file on disk), and
the decision at a concrete all-files-present state with a newer `west.yml`
returns true. -/
theorem C4_monotone_flag_and_or_witness :
    (generate_west_config (fun _ => "W")
      ⟨"pw", "sw", "bw", "aw", "v4.3.0", [], true⟩
      (fun p => if p = "aw/west.yml" then some ⟨"W", 1⟩ else none)
      9).1.need_reconfigure = true
    ∧ is_reconfigure_required
      ⟨"pw", "sw", "bw", "aw", "v4.3.0", [], false⟩
      (fun p =>
        if p = "aw/west.yml" then some ⟨"w", 5⟩
        else if p = "bw" then some ⟨"", 3⟩
        else if p = "aw/CMakeLists.txt" then some ⟨"c", 1⟩
        else if p = "bw/CMakeCache.txt" then some ⟨"k", 2⟩
        else none) = .ok true := by
  constructor
  · have h := (C4_monotone_flag_and_or (fun _ => "W") (fun _ _ => "")
      ⟨"pw", "sw", "bw", "aw", "v4.3.0", [], true⟩
      (fun p => if p = "aw/west.yml" then some ⟨"W", 1⟩ else none)
      9 [] [] [] false ⟨"", 0⟩ ⟨"", 0⟩ ⟨"", 0⟩ ⟨"", 0⟩).1
    rw [h]
    rfl
  · have h := (C4_monotone_flag_and_or (fun _ => "W") (fun _ _ => "")
      ⟨"pw", "sw", "bw", "aw", "v4.3.0", [], false⟩
      (fun p =>
        if p = "aw/west.yml" then some ⟨"w", 5⟩
        else if p = "bw" then some ⟨"", 3⟩
        else if p = "aw/CMakeLists.txt" then some ⟨"c", 1⟩
        else if p = "bw/CMakeCache.txt" then some ⟨"k", 2⟩
        else none)
      9 [] [] [] false ⟨"w", 5⟩ ⟨"", 3⟩ ⟨"c", 1⟩ ⟨"k", 2⟩).2.2
      (by decide) (by decide) (by decide) (by decide)
    rw [h]
    rfl

/-! ### Helper lemmas for artifact generation (claims C5, C6) -/

theorem append_suffix_ne (s t : String) (ht : t.length ≠ 0) : s ++ t ≠ s := by
  intro h
  have hlen := congrArg String.length h
  rw [String.length_append] at hlen
  omega

theorem cmake_txt_path_ne_app_dir (sdk : ZephyrSdk) :
    cmake_txt_path sdk ≠ sdk.app_dir :=
  append_suffix_ne sdk.app_dir "/CMakeLists.txt" (by decide)

theorem mkdir_p_ne (fs : FS) (d : String) (now : Nat) (q : String) (h : q ≠ d) :
    mkdir_p fs d now q = fs q := by
  unfold mkdir_p
  cases fs d <;> simp [write_text, h]

theorem write_if_changed_none (fs : FS) (p c : String) (now : Nat)
    (h : fs p = none) :
    write_if_changed fs p c now = (write_text fs p c now, true) := by
  unfold write_if_changed
  rw [h]

theorem write_if_changed_diff (fs : FS) (p c : String) (now : Nat) (f : File)
    (h : fs p = some f) (hne : f.content ≠ c) :
    write_if_changed fs p c now = (write_text fs p c now, true) := by
  unfold write_if_changed
  rw [h]
  simp [hne]

theorem write_if_changed_same (fs : FS) (p c : String) (now : Nat) (f : File)
    (h : fs p = some f) (heq : f.content = c) :
    write_if_changed fs p c now = (fs, false) := by
  unfold write_if_changed
  rw [h]
  simp [heq]

/-! ### Claim theorems: C5 and C6 -/

/-- C5: each generated artifact (`west.yml` through `_generate_west_config`,
`CMakeLists.txt` through `_generate_project_files`) is written exactly when
it is absent or its on-disk content differs from the freshly rendered
content; an equal-content artifact is left untouched (its entry, including
the modification time, is unchanged and for `west.yml` the whole state is
returned as is), and `need_reconfigure` is set to true exactly on a write
(left at its previous value otherwise). The hypothesis `hm` records that
the `main.c` fallback path differs from the artifact path (true of real
path strings, which end in different file names). -/
theorem C5_artifact_write_iff_changed (render : WestContext → String)
    (renderP : String → ProjectContext → String) (sdk : ZephyrSdk)
    (build_flags link_flags source_files : List String) (sourceDirEmpty : Bool)
    (fs : FS) (now : Nat)
    (hm : main_c_path sdk ≠ cmake_txt_path sdk) :
    (fs (west_yml_path sdk) = none →
      (generate_west_config render sdk fs now).2 (west_yml_path sdk) =
        some ⟨render { modules := sdk.modules, version := sdk.version }, now⟩
      ∧ (generate_west_config render sdk fs now).1.need_reconfigure = true)
    ∧ (∀ f, fs (west_yml_path sdk) = some f →
      f.content ≠ render { modules := sdk.modules, version := sdk.version } →
      (generate_west_config render sdk fs now).2 (west_yml_path sdk) =
        some ⟨render { modules := sdk.modules, version := sdk.version }, now⟩
      ∧ (generate_west_config render sdk fs now).1.need_reconfigure = true)
    ∧ (∀ f, fs (west_yml_path sdk) = some f →
      f.content = render { modules := sdk.modules, version := sdk.version } →
      generate_west_config render sdk fs now = (sdk, fs))
    ∧ (fs (cmake_txt_path sdk) = none →
      (generate_project_files renderP sdk build_flags link_flags source_files
          sourceDirEmpty fs now).2 (cmake_txt_path sdk) =
        some ⟨renderP "CMakeLists.txt.j2"
          { build_flags := build_flags, link_flags := link_flags,
            source_files := source_files, project_name := sdk.project_name }, now⟩
      ∧ (generate_project_files renderP sdk build_flags link_flags source_files
          sourceDirEmpty fs now).1.need_reconfigure = true)
    ∧ (∀ f, fs (cmake_txt_path sdk) = some f →
      f.content ≠ renderP "CMakeLists.txt.j2"
        { build_flags := build_flags, link_flags := link_flags,
          source_files := source_files, project_name := sdk.project_name } →
      (generate_project_files renderP sdk build_flags link_flags source_files
          sourceDirEmpty fs now).2 (cmake_txt_path sdk) =
        some ⟨renderP "CMakeLists.txt.j2"
          { build_flags := build_flags, link_flags := link_flags,
            source_files := source_files, project_name := sdk.project_name }, now⟩
      ∧ (generate_project_files renderP sdk build_flags link_flags source_files
          sourceDirEmpty fs now).1.need_reconfigure = true)
    ∧ (∀ f, fs (cmake_txt_path sdk) = some f →
      f.content = renderP "CMakeLists.txt.j2"
        { build_flags := build_flags, link_flags := link_flags,
          source_files := source_files, project_name := sdk.project_name } →
      (generate_project_files renderP sdk build_flags link_flags source_files
          sourceDirEmpty fs now).2 (cmake_txt_path sdk) = fs (cmake_txt_path sdk)
      ∧ (generate_project_files renderP sdk build_flags link_flags source_files
          sourceDirEmpty fs now).1 = sdk) := by
  have hmk : mkdir_p fs sdk.app_dir now (cmake_txt_path sdk) = fs (cmake_txt_path sdk) :=
    mkdir_p_ne fs sdk.app_dir now _ (cmake_txt_path_ne_app_dir sdk)
  have hmc : ¬ cmake_txt_path sdk = main_c_path sdk := fun hh => hm hh.symm
  refine ⟨?_, ?_, ?_, ?_, ?_, ?_⟩
  · intro hw
    unfold generate_west_config write_if_changed
    rw [hw]
    simp [write_text]
  · intro f hw hne
    unfold generate_west_config write_if_changed
    rw [hw]
    simp [hne, write_text]
  · intro f hw heq
    unfold generate_west_config write_if_changed
    rw [hw]
    simp [heq]
  · intro hc
    have hfs1 : mkdir_p fs sdk.app_dir now (cmake_txt_path sdk) = none := by
      rw [hmk, hc]
    simp only [generate_project_files]
    rw [write_if_changed_none _ _ _ _ hfs1]
    cases sourceDirEmpty <;> simp [write_text, hmc]
  · intro f hc hne
    have hfs1 : mkdir_p fs sdk.app_dir now (cmake_txt_path sdk) = some f := by
      rw [hmk, hc]
    simp only [generate_project_files]
    rw [write_if_changed_diff _ _ _ _ f hfs1 hne]
    cases sourceDirEmpty <;> simp [write_text, hmc]
  · intro f hc heq
    have hfs1 : mkdir_p fs sdk.app_dir now (cmake_txt_path sdk) = some f := by
      rw [hmk, hc]
    simp only [generate_project_files]
    rw [write_if_changed_same _ _ _ _ f hfs1 heq]
    cases sourceDirEmpty <;> simp [write_text, hmc, hmk]

/-- Witness for C5 at concrete states: an absent `west.yml` is created with
the rendered content and sets the flag; an equal-content `CMakeLists.txt`
is left untouched (same entry, mtime 4) and the state is unchanged. -/
theorem C5_artifact_write_iff_changed_witness :
    (generate_west_config (fun _ => "west-content")
      ⟨"p5", "s5", "b5", "a5", "v4.3.0", [], false⟩ (fun _ => none) 7).2 "a5/west.yml" =
      some ⟨"west-content", 7⟩
    ∧ (generate_west_config (fun _ => "west-content")
      ⟨"p5", "s5", "b5", "a5", "v4.3.0", [], false⟩ (fun _ => none) 7).1.need_reconfigure = true
    ∧ (generate_project_files (fun _ _ => "cmake-content")
      ⟨"p5", "s5", "b5", "a5", "v4.3.0", [], false⟩ [] [] [] false
      (fun p => if p = "a5/CMakeLists.txt" then some ⟨"cmake-content", 4⟩ else none)
      7).2 (cmake_txt_path ⟨"p5", "s5", "b5", "a5", "v4.3.0", [], false⟩) =
      some ⟨"cmake-content", 4⟩ := by
  have h1 := (C5_artifact_write_iff_changed (fun _ => "west-content") (fun _ _ => "cmake-content")
    ⟨"p5", "s5", "b5", "a5", "v4.3.0", [], false⟩ [] [] [] false (fun _ => none) 7
    (by decide)).1 rfl
  have h2 := ((C5_artifact_write_iff_changed (fun _ => "west-content") (fun _ _ => "cmake-content")
    ⟨"p5", "s5", "b5", "a5", "v4.3.0", [], false⟩ [] [] [] false
    (fun p => if p = "a5/CMakeLists.txt" then some ⟨"cmake-content", 4⟩ else none) 7
    (by decide)).2.2.2.2.2 ⟨"cmake-content", 4⟩ (by decide) rfl).1
  refine ⟨h1.1, h1.2, ?_⟩
  rw [h2]
  decide

/-- C6: the write-if-changed pattern is idempotent: for every filesystem,
path and content, the second of two consecutive identical calls reports no
change and returns the filesystem of the first call unchanged (so the
file's bytes and modification time are untouched), and starting from an
absent file the first call creates it (reporting a change) while the
second leaves the created entry, with its original mtime, in place —
exactly one write happens. -/
theorem C6_write_if_changed_idempotent (fs : FS) (p c : String) (now now2 : Nat) :
    ((write_if_changed (write_if_changed fs p c now).1 p c now2).2 = false
    ∧ (write_if_changed (write_if_changed fs p c now).1 p c now2).1 =
        (write_if_changed fs p c now).1)
    ∧ (fs p = none →
      (write_if_changed fs p c now).2 = true
      ∧ (write_if_changed fs p c now).1 p = some ⟨c, now⟩
      ∧ (write_if_changed (write_if_changed fs p c now).1 p c now2).1 p =
          some ⟨c, now⟩) := by
  have hp : ∃ m, (write_if_changed fs p c now).1 p = some ⟨c, m⟩ := by
    unfold write_if_changed
    cases hfp : fs p with
    | none => exact ⟨now, by simp [write_text]⟩
    | some f =>
      by_cases h : f.content = c
      · refine ⟨f.mtime, ?_⟩
        simp only [h, if_true]
        rw [hfp, ← h]
      · exact ⟨now, by simp [h, write_text]⟩
  obtain ⟨m, hpm⟩ := hp
  have hsecond : write_if_changed (write_if_changed fs p c now).1 p c now2 =
      ((write_if_changed fs p c now).1, false) := by
    conv_lhs => rw [write_if_changed.eq_def, hpm]
    simp
  refine ⟨⟨by rw [hsecond], by rw [hsecond]⟩, fun hnone => ?_⟩
  have hfirst : (write_if_changed fs p c now).1 p = some ⟨c, now⟩ := by
    unfold write_if_changed
    rw [hnone]
    simp [write_text]
  refine ⟨?_, hfirst, by rw [hsecond]; exact hfirst⟩
  unfold write_if_changed
  rw [hnone]

/-- Witness for C6 on an empty filesystem: `write_if_changed(p, "A")`
creates the file (mtime 1) and reports a change; the immediate second
identical call reports no change and leaves content and mtime untouched. -/
theorem C6_write_if_changed_idempotent_witness :
    (write_if_changed (fun _ => none) "proj/app/west.yml" "A" 1).2 = true
    ∧ (write_if_changed (fun _ => none) "proj/app/west.yml" "A" 1).1 "proj/app/west.yml" =
        some ⟨"A", 1⟩
    ∧ (write_if_changed (write_if_changed (fun _ => none) "proj/app/west.yml" "A" 1).1
        "proj/app/west.yml" "A" 2).2 = false
    ∧ (write_if_changed (write_if_changed (fun _ => none) "proj/app/west.yml" "A" 1).1
        "proj/app/west.yml" "A" 2).1 "proj/app/west.yml" = some ⟨"A", 1⟩ := by
  have h := C6_write_if_changed_idempotent (fun _ => none) "proj/app/west.yml" "A" 1 2
  obtain ⟨⟨h1, _⟩, h2⟩ := h
  obtain ⟨h3, h4, h5⟩ := h2 rfl
  exact ⟨h3, h4, h1, h5⟩

/-! ### Pinned extra build arguments (claim C9) -/

/-- Multiset equality of two argument lists (order-insensitive, duplicate
counting): repeatedly remove the head of the first list from the second. -/
def multisetEq (a b : List String) : Bool :=
  match a with
  | [] => b.isEmpty
  | x :: xs => b.contains x && multisetEq xs (b.erase x)

/-- Modelled from the spec: the `set_pinned_arguments` operation of the
ReconfigurationDecider. The script variant of this repository that holds
the pinned-arguments query/compare/update logic is not under `src/` (the
one file present only passes `cmake_extra_args` straight through in
`dontGenerateProgram`); per the spec it reads the previously recorded
extra build arguments through an external query — `none` here when the
query failed or nothing was recorded, which is recovered locally and
treated as "value differs" — compares them with the desired list
order-insensitively, and issues exactly one external update command when
they differ. Returns `(changed, number of update calls issued)`. -/
def set_pinned_arguments (prior : Option (List String)) (desired : List String) :
    Bool × Nat :=
  match prior with
  | none => (true, 1)
  | some current =>
    if multisetEq current desired then (false, 0) else (true, 1)

theorem multisetEq_of_perm (a : List String) :
    ∀ b : List String, List.Perm a b → multisetEq a b = true := by
  induction a with
  | nil =>
    intro b h
    rw [List.Perm.eq_nil h.symm]
    rfl
  | cons x xs ih =>
    intro b h
    have hx : x ∈ b := h.mem_iff.mp (List.mem_cons_self x xs)
    have hperm : List.Perm xs (b.erase x) := (List.cons_perm_iff_perm_erase.mp h).2
    simp only [multisetEq, Bool.and_eq_true]
    exact ⟨List.elem_eq_true_of_mem hx, ih _ hperm⟩

/-- C9: the pinned-arguments operation compares the previously recorded
extra build arguments with the desired ones order-insensitively: a failed
query (`none`) is treated as "value differs" (one update, changed true,
no error surfaced — the operation is total); a recorded list that is a
permutation of the desired one reports `changed = false` with no update
call; a recorded list that is not multiset-equal reports `changed = true`
with exactly one update call. -/
theorem C9_set_pinned_arguments_policy (prior : Option (List String))
    (desired current : List String) :
    (prior = none → set_pinned_arguments prior desired = (true, 1))
    ∧ (prior = some current → List.Perm current desired →
      set_pinned_arguments prior desired = (false, 0))
    ∧ (prior = some current → multisetEq current desired = false →
      set_pinned_arguments prior desired = (true, 1)) := by
  refine ⟨fun h => by rw [h]; rfl, fun h hperm => ?_, fun h hne => ?_⟩
  · rw [h]
    simp [set_pinned_arguments, multisetEq_of_perm current desired hperm]
  · rw [h]
    simp [set_pinned_arguments, hne]

/-- Witness for C9 at the spec's scenario: prior `["-DX=1"]` and desired
`["-DX=1"]` report no change and no update; desired `["-DX=2"]` reports a
change with exactly one update; a failed query also reports a change. -/
theorem C9_set_pinned_arguments_policy_witness :
    set_pinned_arguments (some ["-DX=1"]) ["-DX=1"] = (false, 0)
    ∧ set_pinned_arguments (some ["-DX=1"]) ["-DX=2"] = (true, 1)
    ∧ set_pinned_arguments none ["-DX=1"] = (true, 1) := by
  refine ⟨?_, ?_, ?_⟩
  · exact (C9_set_pinned_arguments_policy (some ["-DX=1"]) ["-DX=1"] ["-DX=1"]).2.1
      rfl (List.Perm.refl _)
  · exact (C9_set_pinned_arguments_policy (some ["-DX=1"]) ["-DX=2"] ["-DX=1"]).2.2
      rfl (by decide)
  · exact (C9_set_pinned_arguments_policy none ["-DX=1"] []).1 rfl

/-! ### Python list.sort() on strings and the source-file collection of
`dontGenerateProgram` (claim C7) -/

/-- Lexicographic comparison of code-point lists, the order Python uses to
compare strings (`a <= b`). -/
def lexLe : List Char → List Char → Bool
  | [], _ => true
  | _ :: _, [] => false
  | a :: as, b :: bs =>
    if a.toNat < b.toNat then true
    else if b.toNat < a.toNat then false
    else lexLe as bs

/-- Python string comparison `a <= b` as a decidable relation. -/
def pyStrLe (a b : String) : Prop := lexLe a.data b.data = true

instance : DecidableRel pyStrLe := fun a b => by
  unfold pyStrLe
  infer_instance

theorem lexLe_total : ∀ a b : List Char, lexLe a b = true ∨ lexLe b a = true
  | [], _ => Or.inl rfl
  | _ :: _, [] => Or.inr rfl
  | x :: xs, y :: ys => by
    rcases Nat.lt_trichotomy x.toNat y.toNat with h | h | h
    · left
      simp [lexLe, h]
    · have h1 : ¬ x.toNat < y.toNat := by omega
      have h2 : ¬ y.toNat < x.toNat := by omega
      rcases lexLe_total xs ys with ht | ht
      · left
        simp [lexLe, h1, h2, ht]
      · right
        simp [lexLe, h1, h2, ht]
    · right
      simp [lexLe, h]

theorem lexLe_trans : ∀ a b c : List Char,
    lexLe a b = true → lexLe b c = true → lexLe a c = true
  | [], _, _, _, _ => rfl
  | _ :: _, [], _, h1, _ => by simp [lexLe] at h1
  | _ :: _, _ :: _, [], _, h2 => by simp [lexLe] at h2
  | x :: xs, y :: ys, z :: zs, h1, h2 => by
    simp only [lexLe] at h1 h2 ⊢
    by_cases hxy : x.toNat < y.toNat
    · by_cases hzy : z.toNat < y.toNat
      · by_cases hyz : y.toNat < z.toNat
        · simp [show x.toNat < z.toNat by omega]
        · simp [hyz, hzy] at h2
      · simp [show x.toNat < z.toNat by omega]
    · by_cases hyx : y.toNat < x.toNat
      · simp [hxy, hyx] at h1
      · by_cases hyz : y.toNat < z.toNat
        · simp [show x.toNat < z.toNat by omega]
        · by_cases hzy : z.toNat < y.toNat
          · simp [hyz, hzy] at h2
          · have hxz : ¬ x.toNat < z.toNat := by omega
            have hzx : ¬ z.toNat < x.toNat := by omega
            simp only [hxz, hzx, if_false]
            simp only [hxy, hyx, if_false] at h1
            simp only [hyz, hzy, if_false] at h2
            exact lexLe_trans xs ys zs h1 h2

theorem lexLe_antisymm : ∀ a b : List Char,
    lexLe a b = true → lexLe b a = true → a = b
  | [], [], _, _ => rfl
  | [], _ :: _, _, h2 => by simp [lexLe] at h2
  | _ :: _, [], h1, _ => by simp [lexLe] at h1
  | x :: xs, y :: ys, h1, h2 => by
    by_cases hxy : x.toNat < y.toNat
    · have hyx : ¬ y.toNat < x.toNat := by omega
      simp [lexLe, hyx, hxy] at h2
    · by_cases hyx : y.toNat < x.toNat
      · simp [lexLe, hxy, hyx] at h1
      · have hhead : x = y := by
        -- equal code points force equal characters
          have hnat : x.toNat = y.toNat := by omega
          have hval : x.val = y.val := by
            apply UInt32.toNat.inj
            exact hnat
          exact Char.ext hval
      -- tails
        simp only [lexLe, hxy, hyx, if_false] at h1 h2
        rw [hhead, lexLe_antisymm xs ys h1 h2]

theorem string_data_eq {a b : String} (h : a.data = b.data) : a = b := by
  cases a
  cases b
  exact congrArg String.mk h

instance : IsTotal String pyStrLe :=
  ⟨fun a b => lexLe_total a.data b.data⟩

instance : IsTrans String pyStrLe :=
  ⟨fun a b c => lexLe_trans a.data b.data c.data⟩

instance : IsAntisymm String pyStrLe :=
  ⟨fun a b h1 h2 => string_data_eq (lexLe_antisymm a.data b.data h1 h2)⟩

/-- Embedding of Python's `list.sort()` on a list of strings: the list
sorted by code-point order (Python's sort is stable, but for a total
antisymmetric order every sorted permutation of a list is unique, so any
correct sort is extensionally the same function). -/
def pySort (l : List String) : List String := List.insertionSort pyStrLe l

/-- Embedding of the source-file collection of `dontGenerateProgram`
(script lines 431-434): start from `PIOBUILDFILES_FINAL`, extend with
`PIOBUILDLIBS_FINAL` when that list is truthy (non-empty), then
`files.sort()`. -/
def dontGenerateProgram_files (buildFiles buildLibs : List String) : List String :=
  pySort (if buildLibs.isEmpty then buildFiles else buildFiles ++ buildLibs)

theorem pySort_eq_of_perm (l1 l2 : List String) (h : List.Perm l1 l2) :
    pySort l1 = pySort l2 := by
  apply List.eq_of_perm_of_sorted (r := pyStrLe)
  · exact ((List.perm_insertionSort _ l1).trans h).trans
      (List.perm_insertionSort _ l2).symm
  · exact List.sorted_insertionSort _ l1
  · exact List.sorted_insertionSort _ l2

/-- C7 counterexample: the module list accumulated via `add_modules` is
NOT sorted before rendering: accumulating `["zephyr"]` then
`["canopennode"]` versus the permuted call order yields different module
lists in the `west.yml` render context, and with a renderer that lists the
modules in order the written artifact content differs byte-wise —
refuting that both lists are sorted before rendering. -/
theorem C7_unsorted_modules_counterexample :
    (add_modules (add_modules
        ⟨"p7", "s7", "b7", "a7", "v4.3.0", [], false⟩ ["zephyr"]) ["canopennode"]).modules ≠
      (add_modules (add_modules
        ⟨"p7", "s7", "b7", "a7", "v4.3.0", [], false⟩ ["canopennode"]) ["zephyr"]).modules
    ∧ (generate_west_config (fun ctx => String.intercalate "\n" ctx.modules)
        (add_modules (add_modules
          ⟨"p7", "s7", "b7", "a7", "v4.3.0", [], false⟩ ["zephyr"]) ["canopennode"])
        (fun _ => none) 0).2 "a7/west.yml" ≠
      (generate_west_config (fun ctx => String.intercalate "\n" ctx.modules)
        (add_modules (add_modules
          ⟨"p7", "s7", "b7", "a7", "v4.3.0", [], false⟩ ["canopennode"]) ["zephyr"])
        (fun _ => none) 0).2 "a7/west.yml" := by
  constructor
  · decide
  · decide

/-- C7 amended: only the caller's source-file list is order-stable: the
list built by `dontGenerateProgram` is sorted by `files.sort()`, so for
any renderer, permutations of the build-file and lib-file inputs produce
the same sorted list and byte-identical `CMakeLists.txt` render input;
the module list accumulated via `add_modules` is not sorted (see the
counterexample). -/
theorem C7_sorted_files_order_stable (renderP : String → ProjectContext → String)
    (build_flags link_flags : List String) (project_name : String)
    (f1 f2 l1 l2 : List String)
    (hf : List.Perm f1 f2) (hl : List.Perm l1 l2) :
    dontGenerateProgram_files f1 l1 = dontGenerateProgram_files f2 l2
    ∧ renderP "CMakeLists.txt.j2"
        { build_flags := build_flags, link_flags := link_flags,
          source_files := dontGenerateProgram_files f1 l1,
          project_name := project_name } =
      renderP "CMakeLists.txt.j2"
        { build_flags := build_flags, link_flags := link_flags,
          source_files := dontGenerateProgram_files f2 l2,
          project_name := project_name } := by
  have hempty : l1.isEmpty = l2.isEmpty := by
    have hlen := hl.length_eq
    cases l1 <;> cases l2 <;> simp_all
  have hmain : dontGenerateProgram_files f1 l1 = dontGenerateProgram_files f2 l2 := by
    unfold dontGenerateProgram_files
    apply pySort_eq_of_perm
    rw [hempty]
    by_cases h : l2.isEmpty
    · simp only [h, if_true]
      exact hf
    · simp only [h, if_false]
      exact hf.append hl
  exact ⟨hmain, by rw [hmain]⟩

/-- Witness for the amended C7: two permutations of a two-file input (with
empty lib lists) collect to the same sorted list, which evaluates to
`["src/led.c", "src/main.c"]`. -/
theorem C7_sorted_files_order_stable_witness :
    dontGenerateProgram_files ["src/main.c", "src/led.c"] [] =
      dontGenerateProgram_files ["src/led.c", "src/main.c"] []
    ∧ dontGenerateProgram_files ["src/main.c", "src/led.c"] [] =
      ["src/led.c", "src/main.c"] := by
  constructor
  · exact (C7_sorted_files_order_stable (fun _ _ => "") [] [] "p"
      ["src/main.c", "src/led.c"] ["src/led.c", "src/main.c"] [] []
      (by decide) (List.Perm.refl _)).1
  · decide

end FrameworkSdkNrf
